import Mathlib

/-!
Verification of the honeypot-api core against its specification.

The Python sources are embedded shallowly:
* strings are `String` / `List Char`;
* Python floats are modelled exactly in fixed point: every score constant in
  the source is an integer multiple of 0.01, so scores are `Nat`s counting
  hundredths (0.15 ↦ 15, threshold 0.30 ↦ 30, cap 1.0 ↦ 100); the history
  accumulator multiplies by 0.5, so it counts two-hundredths (0.30 ↦ 60,
  cap 1.0 ↦ 200); the similarity ratio of `is_repetitive` is kept as an
  exact fraction and compared by cross-multiplication.  All comparisons in
  source and claims are exact at these grids, so no float-rounding boundary
  is crossed;
* the regular expressions of `app/intelligence.py` are embedded by a small
  backtracking combinator language (`Opts`) whose candidate-length lists are
  produced in Python's `re` priority order (leftmost match, greedy
  quantifiers, alternatives in written order), together with a `findall`
  driver that emits non-overlapping matches left to right;
* Python's `\w` / `\s` / `\b` are modelled over the ASCII range (every input
  appearing in the claims is ASCII);
* `None` / non-`str` arguments of the dynamically typed source are modelled
  by `Option String` (`none` = absent or non-string input).
-/

namespace Honeypot

/-- ASCII decimal digit, Python regex `\d` (ASCII range). -/
def isDigitChar (c : Char) : Bool := ('0' ≤ c) && (c ≤ '9')

/-- ASCII letter, regex `[a-zA-Z]`. -/
def isAlphaChar (c : Char) : Bool :=
  (('a' ≤ c) && (c ≤ 'z')) || (('A' ≤ c) && (c ≤ 'Z'))

/-- Python regex `\w` (ASCII range): letters, digits, underscore. -/
def isWordChar (c : Char) : Bool :=
  isAlphaChar c || isDigitChar c || c == '_'

/-- Python regex `\s` / `str.split()` whitespace (ASCII range). -/
def isSpaceChar (c : Char) : Bool :=
  c == ' ' || c == '\t' || c == '\n' || c == '\r' || c == '\x0b' || c == '\x0c'

/-- The character class `[\s\-]` used by the separator-stripping `re.sub`s. -/
def isSepChar (c : Char) : Bool := isSpaceChar c || c == '-'

/-- ASCII lower-casing of one character, as `str.lower()` acts on ASCII. -/
def lowerChar (c : Char) : Char :=
  if ('A' ≤ c) && (c ≤ 'Z') then Char.ofNat (c.toNat + 32) else c

/-- `str.lower()` (ASCII model). -/
def lowerStr (s : String) : String := String.mk (s.data.map lowerChar)

/-- Substring test on character lists: Python's `needle in hay`. -/
def containsSub (hay needle : List Char) : Bool :=
  match hay with
  | [] => needle.isEmpty
  | c :: t => needle.isPrefixOf (c :: t) || containsSub t needle

/-- Python's `needle in hay` on strings. -/
def containsStr (hay needle : String) : Bool := containsSub hay.data needle.data

/-- `str.endswith` : Python `u.endswith(ext)`. -/
def endsWithStr (u ext : String) : Bool := ext.data.isSuffixOf u.data

/-- `str.startswith`. -/
def startsWithStr (u pre : String) : Bool := pre.data.isPrefixOf u.data

/-- `re.sub(r"[\s\-]", "", a)`: delete space/dash characters. -/
def cleanSep (s : String) : String := String.mk (s.data.filter (fun c => !(isSepChar c)))

/-- `re.sub(r"[\s\-\+]", "", p)`: delete space/dash/plus characters. -/
def cleanPhone (s : String) : String :=
  String.mk (s.data.filter (fun c => !(isSepChar c || c == '+')))

/-- `str.strip()`: drop leading and trailing whitespace (ASCII model). -/
def stripStr (s : String) : String :=
  String.mk (((s.data.dropWhile isSpaceChar).reverse.dropWhile isSpaceChar).reverse)

/-- Worker for `pySplit`: `cur` holds the current word reversed. -/
def pySplitGo (cur : List Char) : List Char → List String
  | [] => if cur = [] then [] else [String.mk cur.reverse]
  | c :: t =>
    if isSpaceChar c then
      if cur = [] then pySplitGo [] t else String.mk cur.reverse :: pySplitGo [] t
    else pySplitGo (c :: cur) t

/-- Python's no-argument `str.split()`: maximal runs of non-whitespace. -/
def pySplit (s : List Char) : List String := pySplitGo [] s

/-- Length of the longest prefix whose characters all satisfy `p`. -/
def countLeading (p : Char → Bool) : List Char → Nat
  | [] => 0
  | c :: t => if p c then countLeading p t + 1 else 0

/-!
Backtracking regex combinators.  A matcher (`Opts`) maps a suffix of the
input to the list of candidate lengths it can consume, in the priority order
Python's `re` explores them (greedy quantifiers try longer first, optional
groups try the present branch first, sequencing explores the left matcher's
choices outermost).
-/

/-- Candidate consumed-lengths of a sub-pattern at a position, priority first. -/
def Opts := List Char → List Nat

/-- Sequencing of two sub-patterns (left choices outermost, as in `re`). -/
def seqO (a b : Opts) : Opts := fun s =>
  (a s).flatMap (fun l => (b (List.drop l s)).map (fun m => l + m))

/-- A literal run of characters. -/
def litO (w : List Char) : Opts := fun s =>
  if w.isPrefixOf s then [w.length] else []

/-- A single character of a class. -/
def classO (p : Char → Bool) : Opts := fun s =>
  match s with
  | [] => []
  | c :: _ => if p c then [1] else []

/-- Greedy `?` on a sub-pattern: present first, then absent. -/
def optO (a : Opts) : Opts := fun s => a s ++ [0]

/-- Greedy bounded repetition `p{lo,hi}` of a character class. -/
def repRange (p : Char → Bool) (lo hi : Nat) : Opts := fun s =>
  let d := min (countLeading p s) hi
  if d < lo then [] else (List.range (d + 1 - lo)).map (fun i => d - i)

/-- Greedy unbounded repetition `p{lo,}` of a character class. -/
def repAtLeast (p : Char → Bool) (lo : Nat) : Opts := fun s =>
  let d := countLeading p s
  if d < lo then [] else (List.range (d + 1 - lo)).map (fun i => d - i)

/-- Word-ness of the character at index `i` of `s` (out of range = non-word),
used for `\b`. -/
def wordAt (s : List Char) (i : Nat) : Bool :=
  match s.get? i with
  | some c => isWordChar c
  | none => false

/-- Word-ness of an optional preceding character. -/
def isWordO : Option Char → Bool
  | some c => isWordChar c
  | none => false

/-- A compiled pattern: its matcher plus whether `\b` anchors its start/end. -/
structure Pat where
  m : Opts
  bStart : Bool
  bEnd : Bool

/-- Length of the `re` match at the current position (`prev` = preceding
character of the whole input), or `none`.  The first candidate length that
satisfies the trailing word-boundary is the one `re` commits to. -/
def matchLenAt (pat : Pat) (prev : Option Char) (s : List Char) : Option Nat :=
  if pat.bStart && (isWordO prev == wordAt s 0) then none
  else (pat.m s).find? (fun T =>
    T != 0 && (!pat.bEnd || (wordAt s (T - 1) != wordAt s T)))

/-- The scanning loop of `re.findall`: left to right, non-overlapping;
`skip` counts characters of the previous match still to pass over. -/
def scanGo (pat : Pat) : Nat → Option Char → List Char → List String
  | _, _, [] => []
  | Nat.succ k, _, c :: t => scanGo pat k (some c) t
  | 0, prev, c :: t =>
    match matchLenAt pat prev (c :: t) with
    | some T => String.mk (List.take T (c :: t)) :: scanGo pat (T - 1) (some c) t
    | none => scanGo pat 0 (some c) t

/-- `re.findall(pattern, text)` for patterns without capturing groups. -/
def findall (pat : Pat) (text : String) : List String := scanGo pat 0 none text.data

/-!
`app/scam_detector.py`
-/

/-- `URGENCY_KEYWORDS` of `app/scam_detector.py`. -/
def URGENCY_KEYWORDS : List String := [
  "immediately", "urgent", "now", "today", "hurry", "quick", "fast",
  "limited time", "act now", "don't delay", "expire", "deadline",
  "expiring", "last chance", "final notice", "action required",
  "attention", "alert", "notice", "overdue", "disconnection",
  "turant", "jaldi", "abhi", "aaj hi", "fauran", "saavdhan"]

/-- `THREAT_KEYWORDS` of `app/scam_detector.py`. -/
def THREAT_KEYWORDS : List String := [
  "blocked", "suspended", "locked", "frozen", "deactivated",
  "legal action", "arrest", "police", "court", "penalty", "fine",
  "case filed", "warrant", "crime", "kyc", "expire", "expiry",
  "suspicious", "unusual", "unauthorized", "fraud", "hacked",
  "compromised", "security alert", "warning", "investigation",
  "under surveillance", "warrant issued", "held", "detained",
  "lapsed", "closed", "deactivated", "disabled", "invalid",
  "band", "block", "arrest", "jail", "thana", "case"]

/-- `FINANCIAL_KEYWORDS` of `app/scam_detector.py`. -/
def FINANCIAL_KEYWORDS : List String := [
  "bank account", "otp", "pin", "password", "cvv", "card number",
  "upi", "transfer", "payment", "refund", "cashback", "prize",
  "lottery", "winner", "reward", "bonus", "free money",
  "won", "congratulations", "claim", "lakh", "crore", "jackpot",
  "atm", "credit card", "debit card", "loan", "approved", "selected",
  "iphone", "samsung", "gift", "voucher", "offer", "shopping",
  "salary", "income", "profit", "investment", "return", "double",
  "insurance", "premium", "policy", "duty", "tax", "fee", "charge",
  "electricity", "bill", "light", "power", "meter", "gold", "coin",
  "car", "bike", "laptop", "job", "hiring", "vacancy", "interview",
  "khata", "paisa", "rupees", "rs", "inaam", "naukri"]

/-- `AUTHORITY_KEYWORDS` of `app/scam_detector.py`. -/
def AUTHORITY_KEYWORDS : List String := [
  "rbi", "reserve bank", "sbi", "hdfc", "icici", "axis",
  "government", "income tax", "customs", "police", "cbi",
  "customer care", "support", "helpline", "official"]

/-- `REQUEST_KEYWORDS` of `app/scam_detector.py`. -/
def REQUEST_KEYWORDS : List String := [
  "share", "send", "give", "provide", "enter", "click", "verify",
  "confirm", "update", "validate", "submit", "link", "http", "www",
  "open", "visit", "login", "register", "call", "contact", "dial",
  "press", "tap", "download", "install",
  "bhejo", "do", "batao", "dijiye", "karo"]

/-- One alternative inside a detector pattern group: a literal, or `\d+`. -/
inductive PatAlt where
  | lit (w : String)
  | digits
deriving DecidableEq

/-- Length of a match of one alternative at the head of `s` (for `\d+` the
one-digit match suffices: any surplus digits are absorbed by the adjacent
`.*`, so existence of a search hit is unchanged). -/
def altLenAt (a : PatAlt) (s : List Char) : Option Nat :=
  match a with
  | .lit w => if w.data.isPrefixOf s then some w.data.length else none
  | .digits =>
    match s with
    | [] => none
    | c :: _ => if isDigitChar c then some 1 else none

/-- Whether some alternative of `bs` matches at or after the current
position, reachable through `.*` (which cannot cross a newline). -/
def bReach (bs : List PatAlt) : List Char → Bool
  | [] => false
  | c :: t => bs.any (fun b => (altLenAt b (c :: t)).isSome)
      || (c != '\n' && bReach bs t)

/-- `re.search` for the detector patterns, which all have the two-group shape
`(a1|a2|...).*(b1|b2|...)`: true iff some `as`-alternative matches somewhere
and some `bs`-alternative matches at or after its end on the same line. -/
def patSearch (as bs : List PatAlt) : List Char → Bool
  | [] => false
  | c :: t =>
    as.any (fun a =>
      match altLenAt a (c :: t) with
      | some L => bReach bs (List.drop L (c :: t))
      | none => false)
    || patSearch as bs t

/-- A named detector pattern `(as...).*(bs...)`. -/
structure ScamPattern where
  name : String
  as : List PatAlt
  bs : List PatAlt

/-- `PATTERNS` of `app/scam_detector.py`, in dict insertion order. -/
def SCAM_PATTERNS : List ScamPattern := [
  ⟨"upi_request", [.lit "share", .lit "send", .lit "give"],
    [.lit "upi", .lit "vpa", .lit "@"]⟩,
  ⟨"otp_request", [.lit "share", .lit "send", .lit "give", .lit "enter"],
    [.lit "otp", .lit "code", .lit "pin"]⟩,
  ⟨"link_click", [.lit "click", .lit "open", .lit "visit"],
    [.lit "link", .lit "url", .lit "http"]⟩,
  ⟨"money_request", [.lit "send", .lit "transfer", .lit "pay"],
    [.lit "money", .lit "amount", .lit "rs", .lit "₹", .digits]⟩,
  ⟨"kyc_scam", [.lit "kyc", .lit "update", .lit "verify"],
    [.lit "account", .lit "bank", .lit "details", .lit "wallet"]⟩,
  ⟨"job_scam", [.lit "job", .lit "work", .lit "hiring", .lit "vacancy", .lit "earning", .lit "salary"],
    [.lit "daily", .lit "guaranteed", .lit "apply", .lit "hr"]⟩,
  ⟨"electricity_scam", [.lit "electricity", .lit "bill", .lit "light", .lit "power"],
    [.lit "disconnect", .lit "unpaid", .lit "cut", .lit "update"]⟩,
  ⟨"customs_scam", [.lit "customs", .lit "parcel", .lit "package", .lit "delivery"],
    [.lit "hold", .lit "held", .lit "duty", .lit "tax", .lit "fee"]⟩,
  ⟨"account_threat", [.lit "account", .lit "khata"],
    [.lit "block", .lit "suspend", .lit "freeze", .lit "band"]⟩,
  ⟨"prize_scam", [.lit "won", .lit "winner", .lit "prize", .lit "lottery", .lit "congratulations"],
    [.lit "lakh", .lit "crore", .lit "rs", .lit "₹", .digits]⟩]

/-- `detect_scam` of `app/scam_detector.py`.  Returns
`(is_scam, confidence, detected_keywords, notes)`.  Scores count hundredths
of the source's float scores (0.15 ↦ 15, …); every constant in the source is
an exact multiple of 0.01, so the arithmetic and all comparisons coincide.
The `none` input models a non-string argument.  The unconditional `++`s for
`detected_keywords` agree with the source's conditional `extend`s because a
category extends exactly its (possibly empty) found-list. -/
def detect_scam (text : Option String) : Bool × Nat × List String × String :=
  match text with
  | none => (false, 0, [], "No text provided")
  | some t =>
  if t.isEmpty then (false, 0, [], "No text provided")
  else
    let text_lower := lowerStr t
    let urgency_found := URGENCY_KEYWORDS.filter (fun kw => containsStr text_lower kw)
    let threat_found := THREAT_KEYWORDS.filter (fun kw => containsStr text_lower kw)
    let financial_found := FINANCIAL_KEYWORDS.filter (fun kw => containsStr text_lower kw)
    let authority_found := AUTHORITY_KEYWORDS.filter (fun kw => containsStr text_lower kw)
    let request_found := REQUEST_KEYWORDS.filter (fun kw => containsStr text_lower kw)
    let score : Nat :=
      (if urgency_found = [] then 0 else 15)
      + (if threat_found = [] then 0 else 25)
      + (if financial_found = [] then 0 else 20)
      + (if authority_found = [] then 0 else 15)
      + (if request_found = [] then 0 else 10)
    let detected_keywords :=
      urgency_found ++ threat_found ++ financial_found ++ authority_found ++ request_found
    let matched_patterns := SCAM_PATTERNS.filter
      (fun p => patSearch p.as p.bs text_lower.data)
    let pattern_matches := matched_patterns.length
    let notes_parts :=
      (if urgency_found = [] then [] else ["urgency tactics"])
      ++ (if threat_found = [] then [] else ["threatening language"])
      ++ (if financial_found = [] then [] else ["financial terms"])
      ++ (if authority_found = [] then [] else ["authority impersonation"])
      ++ (if request_found = [] then [] else ["information request"])
      ++ matched_patterns.map (fun p => "pattern: " ++ p.name)
    let score := score + min (pattern_matches * 15) 30
    let is_scam := decide (30 ≤ score)
    let confidence := min score 100
    let notes :=
      if notes_parts = [] then "No scam indicators"
      else "Scammer used " ++ String.intercalate ", " notes_parts
    (is_scam, confidence, detected_keywords.dedup, notes)

/-- A conversation-history entry.  The source stores dicts with `sender`,
`text` and a timestamp; the timestamp is consumed by none of the embedded
code paths, so it is omitted. -/
structure Msg where
  sender : String
  text : String
deriving DecidableEq

/-- `analyze_conversation_history` of `app/scam_detector.py`: per-message
confidence of each scammer-authored turn, summed at half weight and capped
at 1.0, with the union of their matched keyword lists.  The half weight
makes the accumulator count two-hundredths of the source's float value
(`score * 0.5` in hundredths is exactly `score` in two-hundredths), so the
cap 1.0 is 200 and the 0.30 threshold of the spec is 60. -/
def analyze_conversation_history (history : List Msg) : Nat × List String :=
  let acc := history.foldl
    (fun (acc : Nat × List String) (msg : Msg) =>
      if msg.sender = "scammer" then
        let r := detect_scam (some msg.text)
        (acc.1 + r.2.1, acc.2 ++ r.2.2.1)
      else acc)
    ((0 : Nat), ([] : List String))
  (min acc.1 200, acc.2.dedup)

/-!
`app/intelligence.py`
-/

/-- `SessionIntelligence` (alias `ExtractedIntelligence`) of `app/models.py`:
five lists of strings, each kept duplicate-free by the extractor's
`list(set(...))` merges. -/
structure SessionIntelligence where
  bankAccounts : List String := []
  upiIds : List String := []
  phishingLinks : List String := []
  phoneNumbers : List String := []
  suspiciousKeywords : List String := []
deriving DecidableEq

/-- `SUSPICIOUS_KEYWORDS` of `app/intelligence.py`. -/
def SUSPICIOUS_KEYWORDS : List String := [
  "urgent", "immediately", "blocked", "suspended", "verify",
  "otp", "pin", "password", "cvv", "transfer", "send money",
  "prize", "winner", "lottery", "refund", "cashback",
  "click here", "update now", "confirm", "validate",
  "bank account", "upi", "payment", "amount",
  "arrest", "legal action", "police", "fine", "penalty",
  "customer care", "helpline", "support",
  "jaldi", "turant", "abhi", "block", "band"]

/-- `PATTERNS["bank_account"] = r"\b\d{9,18}\b"`. -/
def bankAccountPat : Pat := ⟨repRange isDigitChar 9 18, true, true⟩

/-- One repetition unit `\d{3,4}[\s\-]?` of the formatted-number pattern. -/
def fmtUnit : Opts := seqO (repRange isDigitChar 3 4) (optO (classO isSepChar))

/-- Candidate lengths of `(?:\d{3,4}[\s\-]?){3,6}` with `budget` repetitions
still allowed and `done` repetitions already made: greedily prefer one more
unit; stopping is allowed once at least 3 units were made. -/
def fmtGroup : Nat → Nat → Opts
  | 0, done => fun _ => if 3 ≤ done then [0] else []
  | Nat.succ b, done => fun s =>
    (fmtUnit s).flatMap (fun l =>
      (fmtGroup b (done + 1) (List.drop l s)).map (fun m => l + m))
    ++ (if 3 ≤ done then [0] else [])

/-- The formatted-number pattern `r"\b(?:\d{3,4}[\s\-]?){3,6}\b"`. -/
def formattedPat : Pat := ⟨fmtGroup 6 0, true, true⟩

/-- Character class `[\w\.\-]` of the UPI local part. -/
def isUpiLocalChar (c : Char) : Bool := isWordChar c || c == '.' || c == '-'

/-- `PATTERNS["upi_id"] = r"\b[\w\.\-]+@[a-zA-Z]{2,}\b"` (the IGNORECASE flag
is a no-op: every class is already case-insensitive). -/
def upiPat : Pat :=
  ⟨seqO (repAtLeast isUpiLocalChar 1) (seqO (litO ['@']) (repAtLeast isAlphaChar 2)),
   true, true⟩

/-- Character class `[6-9]`. -/
def isMobileFirstChar (c : Char) : Bool := ('6' ≤ c) && (c ≤ '9')

/-- The inline phone pattern
`r"(?:\+91[\-\s]?)?[6-9]\d{1,4}[\-\s]?\d{1,4}[\-\s]?\d{1,4}\b"`. -/
def phoneMainPat : Pat :=
  ⟨seqO (optO (seqO (litO ['+', '9', '1']) (optO (classO isSepChar))))
    (seqO (classO isMobileFirstChar)
      (seqO (repRange isDigitChar 1 4)
        (seqO (optO (classO isSepChar))
          (seqO (repRange isDigitChar 1 4)
            (seqO (optO (classO isSepChar)) (repRange isDigitChar 1 4)))))),
   false, true⟩

/-- The inline ten-digit pattern `r"\b[6-9]\d{9}\b"`. -/
def tenDigitPat : Pat :=
  ⟨seqO (classO isMobileFirstChar) (repRange isDigitChar 9 9), true, true⟩

/-- Character class of `PATTERNS["url"]`'s body:
`[^\s<>"{}|\\^`[\]]` (every character except whitespace and the bracket-like
set). -/
def isUrlChar (c : Char) : Bool :=
  !(isSpaceChar c || c == '<' || c == '>' || c == '"' || c == '\x7b' ||
    c == '\x7d' || c == '|' || c == '\\' || c == '^' || c == '\x60' ||
    c == '[' || c == ']')

/-- `PATTERNS["url"] = r"https?://[^\s<>\"{}|\\^`\[\]]+"`. -/
def urlPat : Pat :=
  ⟨seqO (litO ['h', 't', 't', 'p'])
    (seqO (optO (litO ['s'])) (seqO (litO [':', '/', '/']) (repAtLeast isUrlChar 1))),
   false, false⟩

/-- `PATTERNS["verification_code"] = r"\b\d{6}\b"`. -/
def verificationCodePat : Pat := ⟨repRange isDigitChar 6 6, true, true⟩

/-- `true_domains` of `extract_intelligence`. -/
def true_domains : List String := [".com", ".net", ".org", ".gov", ".edu", ".in", ".co"]

/-- `common_vpa_suffixes` of `extract_intelligence`. -/
def common_vpa_suffixes : List String :=
  ["@ybl", "@paytm", "@oksbi", "@okaxis", "@okicici", "@ibl", "@apl", "@axl"]

/-- `safe_domains` of `extract_intelligence`. -/
def safe_domains : List String :=
  ["google.com", "facebook.com", "twitter.com", "gov.in", "rbi.org.in"]

/-- The body of the bank-account filter loop: clean one raw candidate and
keep it unless it is year-like or looks like a 10-digit mobile number. -/
def bankKeep (a : String) : Option String :=
  let cleaned := cleanSep a
  let is_mobile := decide (cleaned.length = 10) &&
    (match cleaned.data with
     | c :: _ => isMobileFirstChar c
     | [] => false)
  if (!(startsWithStr cleaned "20") || decide (4 < cleaned.length)) && !is_mobile
  then some cleaned else none

/-- The body of the phone clean-up loop: strip `[\s\-\+]`, drop a leading
`91` of a 12-digit result, and keep only exact 10-digit results. -/
def phoneKeep (p : String) : Option String :=
  let cleaned := cleanPhone p
  let cleaned := if startsWithStr cleaned "91" && decide (cleaned.length = 12)
                 then cleaned.drop 2 else cleaned
  if cleaned.length = 10 then some cleaned else none

/-- `extract_intelligence` of `app/intelligence.py`.  `none` models a
non-string `text`.  Python's arbitrarily-ordered `list(set(old + new))`
merges are modelled as `(old ++ new).dedup`: the claims about the record
are membership/cardinality statements, which are order-independent. -/
def extract_intelligence (text : Option String) (existing : SessionIntelligence) :
    SessionIntelligence :=
  match text with
  | none => existing
  | some t =>
  if t.isEmpty then existing
  else
    let text_lower := lowerStr t
    -- bank accounts
    let raw0 := findall bankAccountPat t
    let formatted_matches := findall formattedPat t
    let raw_accounts := raw0 ++ formatted_matches.filter
      (fun fm => decide (9 ≤ (cleanSep fm).length) && decide ((cleanSep fm).length ≤ 18))
    let existing :=
      if raw_accounts = [] then existing
      else
        let filtered := raw_accounts.filterMap bankKeep
        { existing with bankAccounts := (existing.bankAccounts ++ filtered).dedup }
    -- UPI ids
    let upi_raw := findall upiPat t
    let upi_ids := upi_raw.filter (fun u =>
      !(true_domains.any (fun ext => endsWithStr (lowerStr u) ext))
      || common_vpa_suffixes.any (fun sfx => endsWithStr (lowerStr u) sfx))
    let existing := { existing with upiIds := (existing.upiIds ++ upi_ids).dedup }
    -- phone numbers
    let raw_phones := findall phoneMainPat t
    let just_digits := findall tenDigitPat t
    let phones := raw_phones ++ just_digits
    let cleaned_phones := phones.filterMap phoneKeep
    let existing :=
      { existing with phoneNumbers := (existing.phoneNumbers ++ cleaned_phones).dedup }
    -- URLs
    let urls_raw := findall urlPat t
    let urls := urls_raw.filter (fun u =>
      !(safe_domains.any (fun safe => containsStr (lowerStr u) safe)))
    let existing := { existing with phishingLinks := (existing.phishingLinks ++ urls).dedup }
    -- suspicious keywords
    let found_keywords := SUSPICIOUS_KEYWORDS.filter (fun kw => containsStr text_lower kw)
    let codes := findall verificationCodePat t
    let found_keywords :=
      if codes = [] then found_keywords
      else found_keywords ++ codes.map (fun c => "Code: " ++ c)
    { existing with
      suspiciousKeywords := (existing.suspiciousKeywords ++ found_keywords).dedup }

/-- Post-state of the `existing` argument after `extract_intelligence`
returns.  The source assigns the merged lists directly into the fields of
`existing` (`existing.bankAccounts = ...`, …) and then returns that very
object, so the caller's record aliases the returned one: its post-state is
the return value, not its pre-state. -/
def extract_argPostState (text : Option String) (existing : SessionIntelligence) :
    SessionIntelligence :=
  extract_intelligence text existing

/-- `get_sim` of `is_repetitive`, kept as an exact fraction
`(numerator, denominator)`: `(0, 1)` on the empty-word-set guard, else
`(|w1 ∩ w2|, max |w1| |w2|)` over the deduplicated word lists (Python's
`set(s.split())`). -/
def get_sim (s1 s2 : String) : Nat × Nat :=
  let w1 := (pySplit s1.data).dedup
  let w2 := (pySplit s2.data).dedup
  if w1 = [] ∨ w2 = [] then (0, 1)
  else ((w1.filter (fun w => w ∈ w2)).length, max w1.length w2.length)

/-- `is_repetitive` of `app/intelligence.py`: true when the last `threshold`
scammer-authored messages are pairwise-consecutively similar.  The source's
float comparison `get_sim(...) < 0.7` is the exact cross-multiplied
comparison `10 * num < 7 * den` (denominators are positive). -/
def is_repetitive (history : List Msg) (threshold : Nat) : Bool :=
  let scammer_msgs := (history.filter (fun m => m.sender == "scammer")).map
    (fun m => lowerStr m.text)
  if scammer_msgs.length < threshold then false
  else
    let last_n := scammer_msgs.drop (scammer_msgs.length - threshold)
    (last_n.zip last_n.tail).all (fun p =>
      let sim := get_sim p.1 p.2
      !(10 * sim.1 < 7 * sim.2))

/-!
`app/agent.py`
-/

/-- `get_fallback_response` of `app/agent.py` (the template dictionary of the
source is commented out; the function returns this single fixed
in-character line for every message). -/
def get_fallback_response (_message : String) : String :=
  "Sir please wait, let me ask my son. He handles all money matters."

/-- `build_conversation_context` of `app/agent.py`: the last 6 history
entries as `Scammer:`/`You:` turns, then the current message and an open
`You:` turn. -/
def build_conversation_context (history : List Msg) (current_message : String) : String :=
  let ctx := (history.drop (history.length - 6)).foldl
    (fun acc m =>
      acc ++ (if m.sender == "scammer" then "Scammer" else "You") ++ ": " ++ m.text ++ "\n")
    ""
  ctx ++ "Scammer: " ++ current_message ++ "\n" ++ "You: "

/-- `generate_response` of `app/agent.py`.  The two network backends are
modelled by their observable outcomes: `nvidiaContent` is the NVIDIA
completion's `message.content` (`none` = client unconfigured, request
exception, or `None` content), `geminiText` is the Gemini `response.text`
(`none` likewise).  An empty string models Python-falsy content: the source
then falls through.  On a truthy NVIDIA content the stripped content is
returned; otherwise on a truthy Gemini text the stripped text is returned
(both the `len >= 20` branch and its else-branch return it); otherwise the
fixed fallback line is returned.  The function is total: no path raises. -/
def generate_response (nvidiaContent geminiText : Option String)
    (current_message : String) (conversation_history : List Msg) : String :=
  let _conversation_context := build_conversation_context conversation_history current_message
  let geminiStep :=
    match geminiText with
    | some t => if t ≠ "" then stripStr t else get_fallback_response current_message
    | none => get_fallback_response current_message
  match nvidiaContent with
  | some content => if content ≠ "" then stripStr content else geminiStep
  | none => geminiStep

/-!
`app/callback.py`
-/

/-- `should_send_callback` of `app/callback.py`.  `message_count` is an
`Int` because Python's integers are unbounded and signed. -/
def should_send_callback (scam_detected : Bool) (message_count : Int)
    (callback_already_sent : Bool) : Bool :=
  if callback_already_sent then false
  else if !scam_detected then false
  else if 1 ≤ message_count then true
  else false

/-!
`app/session.py` and the request-processing core of `app/main.py`
-/

/-- The per-conversation state of `app/session.py`'s `Session`, restricted
to the fields the embedded request path reads or writes (timestamps and
`last_agent_response` are dropped; disk persistence is best-effort and does
not change the in-memory state). -/
structure Session where
  message_count : Nat
  scam_detected : Bool
  intelligence : SessionIntelligence
  agent_notes : String
  conversation_history : List Msg
  callback_sent : Bool
deriving DecidableEq

/-- A fresh session, as `Session.__init__` creates it. -/
def Session.fresh : Session :=
  { message_count := 0, scam_detected := false, intelligence := {},
    agent_notes := "", conversation_history := [], callback_sent := false }

/-- Step 3.3 of `analyze_message_root_flexible` (`app/main.py`): if the
request carries a history, it replaces the session's local history. -/
def sync_history (sess : Session) (reqHistory : List Msg) : Session :=
  if reqHistory = [] then sess
  else { sess with conversation_history := reqHistory }

/-- Step 3.3, second half: append the current message as a scammer turn
unless the last history entry already has the same text
(`conversation_history[-1:]`). -/
def append_current (sess : Session) (msgText : String) : Session :=
  if (sess.conversation_history.drop (sess.conversation_history.length - 1)).any
      (fun h => h.text == msgText)
  then sess
  else { sess with
    conversation_history := sess.conversation_history ++ [⟨"scammer", msgText⟩] }

/-- Step 3.5, second half: fold `extract_intelligence` over the
scammer-authored, non-empty entries of the request history. -/
def extract_from_history (reqHistory : List Msg) (intel : SessionIntelligence) :
    SessionIntelligence :=
  reqHistory.foldl
    (fun acc h =>
      if lowerStr h.sender == "scammer" && h.text ≠ "" then
        extract_intelligence (some h.text) acc
      else acc)
    intel

/-- What the embedded request path returns to the caller: the fields of the
JSON response that the claims speak about, plus whether a callback task was
scheduled. -/
structure ProcResult where
  session : Session
  reply : String
  scamDetected : Bool
  intel : SessionIntelligence
  notes : String
  callbackScheduled : Bool
deriving DecidableEq

/-- The request-processing core of `analyze_message_root_flexible`
(`app/main.py`, steps 3.3–3.8) for an inbound message `msgText` with request
history `reqHistory` on session `sess`: history synchronisation, message
counting, `detect_scam` on the current message, intelligence extraction from
the current message and the request history, the engage branch, and the
callback decision.  `agentReply` stands for the value produced by the
response-generation call on the engage branch (that call reaches a provider
or its fallback; no claim settled here depends on the branch's reply).
`analyze_conversation_history` is imported by `app/main.py` but has no call
site, which this embedding mirrors by not invoking it. -/
def process_message (sess : Session) (sessionId : String) (msgText : String)
    (reqHistory : List Msg) (agentReply : String) : ProcResult :=
  let s1 := sync_history sess reqHistory
  let s2 := append_current s1 msgText
  let s3 := { s2 with message_count := max (s2.message_count + 1) (reqHistory.length + 1) }
  let d := detect_scam (some msgText)
  let is_scam := d.1
  let notes := d.2.2.2
  let intel := extract_intelligence (some msgText) s3.intelligence
  let intel := extract_from_history reqHistory intel
  let s4 := { s3 with intelligence := intel, agent_notes := notes }
  if is_scam || s4.scam_detected then
    let s5 := { s4 with
      conversation_history := s4.conversation_history ++ [⟨"agent", agentReply⟩],
      scam_detected := true }
    let send := should_send_callback true (s5.message_count : Int) s5.callback_sent
    let s6 := if send then { s5 with callback_sent := true } else s5
    ⟨s6, agentReply, true, intel, notes, send⟩
  else
    let default_reply := "Hello! How can I help you today? Ref: " ++ sessionId
    let send := should_send_callback false (s4.message_count : Int) s4.callback_sent
    let s5 := if send then { s4 with callback_sent := true } else s4
    ⟨s5, default_reply, false, intel, notes, send⟩

/-!
Specification-side definitions and invariants used to state the claims.
-/

/-- An intelligence list is well-formed when it has no duplicates and no
empty string (the record invariant of the spec's data model). -/
def goodList (l : List String) : Prop := l.Nodup ∧ "" ∉ l

/-- The spec's invariant on the whole intelligence record. -/
def GoodIntel (r : SessionIntelligence) : Prop :=
  goodList r.bankAccounts ∧ goodList r.upiIds ∧ goodList r.phishingLinks ∧
  goodList r.phoneNumbers ∧ goodList r.suspiciousKeywords

/-- The word set of a message text as the claims speak of it: Python's
`set(text.split())`, as a `Finset`. -/
def specWordSet (s : String) : Finset String := (pySplit s.data).toFinset

/-- The pairwise condition exactly as claim C10 words it: Jaccard
word-overlap similarity (intersection size over union size) at least 0.7,
written cross-multiplied over `Nat`; a pair of empty word sets (where the
rational `0 / 0 = 0`) does not satisfy it. -/
def jaccardAtLeast70 (s1 s2 : String) : Prop :=
  0 < (specWordSet s1 ∪ specWordSet s2).card ∧
  7 * (specWordSet s1 ∪ specWordSet s2).card ≤
    10 * (specWordSet s1 ∩ specWordSet s2).card

/-- Claim C10's repetitiveness property, as stated: at least `threshold`
scammer-authored (lower-cased) messages, and every consecutive pair among
the last `threshold` of them has Jaccard similarity ≥ 0.7. -/
def specRepetitiveJaccard (history : List Msg) (threshold : Nat) : Prop :=
  let msgs := (history.filter (fun m => m.sender == "scammer")).map
    (fun m => lowerStr m.text)
  threshold ≤ msgs.length ∧
    ∀ p ∈ (msgs.drop (msgs.length - threshold)).zip
        (msgs.drop (msgs.length - threshold)).tail,
      jaccardAtLeast70 p.1 p.2

/-- The pairwise condition the code actually implements, in the claims'
style: word-overlap similarity with the *larger* of the two word sets as
denominator (`|w1 ∩ w2| / max |w1| |w2| ≥ 0.7`, cross-multiplied; a pair of
empty word sets does not satisfy it). -/
def overlapAtLeast70 (s1 s2 : String) : Prop :=
  0 < max (specWordSet s1).card (specWordSet s2).card ∧
  7 * max (specWordSet s1).card (specWordSet s2).card ≤
    10 * (specWordSet s1 ∩ specWordSet s2).card

/-- Claim C10 with the similarity denominator corrected from union size to
the larger set's size. -/
def specRepetitiveOverlap (history : List Msg) (threshold : Nat) : Prop :=
  let msgs := (history.filter (fun m => m.sender == "scammer")).map
    (fun m => lowerStr m.text)
  threshold ≤ msgs.length ∧
    ∀ p ∈ (msgs.drop (msgs.length - threshold)).zip
        (msgs.drop (msgs.length - threshold)).tail,
      overlapAtLeast70 p.1 p.2

instance (l : List String) : Decidable (goodList l) := by
  unfold goodList; infer_instance

instance (r : SessionIntelligence) : Decidable (GoodIntel r) := by
  unfold GoodIntel; infer_instance

instance (s1 s2 : String) : Decidable (jaccardAtLeast70 s1 s2) := by
  unfold jaccardAtLeast70; infer_instance

instance (history : List Msg) (threshold : Nat) :
    Decidable (specRepetitiveJaccard history threshold) := by
  unfold specRepetitiveJaccard; infer_instance

instance (s1 s2 : String) : Decidable (overlapAtLeast70 s1 s2) := by
  unfold overlapAtLeast70; infer_instance

instance (history : List Msg) (threshold : Nat) :
    Decidable (specRepetitiveOverlap history threshold) := by
  unfold specRepetitiveOverlap; infer_instance

/-- The end-to-end scenario text of claim C1. -/
def c1Text : String :=
  "URGENT: Your SBI account is blocked. Share OTP and account number 912345678901 now."

/-- Claim C2's counterexample history: two scammer turns, each scoring 0.40
(urgency 0.15 + threat 0.25), for a cumulative half-weighted 0.40 > 0.30. -/
def c2History : List Msg :=
  [⟨"scammer", "urgent kyc"⟩, ⟨"scammer", "urgent kyc"⟩]

/-- Claim C10's counterexample history: the second and third messages share
7 of their 10 words, so overlap/max is exactly 0.7 but Jaccard is 7/13. -/
def c10History : List Msg :=
  [⟨"scammer", "a b c d e f g h i j"⟩, ⟨"scammer", "a b c d e f g h i j"⟩,
   ⟨"scammer", "a b c d e f g x y z"⟩]

/-!
General lemmas about the embedded operations.
-/

/-- Old members survive a dedup-append merge. -/
theorem mem_dedup_append_left {α : Type} [DecidableEq α] {x : α} {l : List α}
    (n : List α) (h : x ∈ l) : x ∈ (l ++ n).dedup := by
  rw [List.mem_dedup]; exact List.mem_append_left n h

/-- History synchronisation does not touch the detection flag. -/
theorem sync_history_scam_detected (sess : Session) (h : List Msg) :
    (sync_history sess h).scam_detected = sess.scam_detected := by
  unfold sync_history; split <;> rfl

/-- Appending the current message does not touch the detection flag. -/
theorem append_current_scam_detected (sess : Session) (m : String) :
    (append_current sess m).scam_detected = sess.scam_detected := by
  unfold append_current; split <;> rfl

/-- Without a detected scam no callback is dispatched. -/
theorem should_send_callback_false (c : Int) (a : Bool) :
    should_send_callback false c a = false := by
  unfold should_send_callback; split <;> rfl

/-- Every token the scanning loop emits is a nonempty prefix of some suffix
of the input, of a length the pattern's matcher offered and the boundary
filter accepted. -/
theorem mem_scanGo {pat : Pat} :
    ∀ (s : List Char) (skip : Nat) (prev : Option Char) (tok : String),
      tok ∈ scanGo pat skip prev s →
      ∃ c t T, T ∈ pat.m (c :: t) ∧ T ≠ 0 ∧ tok = String.mk (List.take T (c :: t)) := by
  intro s
  induction s with
  | nil => intro skip prev tok h; simp [scanGo] at h
  | cons c t ih =>
    intro skip prev tok h
    match skip with
    | Nat.succ k => exact ih k (some c) tok h
    | 0 =>
      rw [scanGo] at h
      cases hm : matchLenAt pat prev (c :: t) with
      | none => rw [hm] at h; exact ih 0 (some c) tok h
      | some T =>
        rw [hm] at h
        rcases List.mem_cons.mp h with rfl | h2
        · unfold matchLenAt at hm
          split at hm
          · exact absurd hm (by simp)
          · have hmem := List.mem_of_find?_eq_some hm
            have hpred := List.find?_some hm
            refine ⟨c, t, T, hmem, ?_, rfl⟩
            rcases Bool.and_eq_true_iff.mp hpred with ⟨h0, _⟩
            simpa using h0
        · exact ih (T - 1) (some c) tok h2

/-- `mem_scanGo` specialised to `findall`. -/
theorem findall_shape {pat : Pat} {text tok : String} (h : tok ∈ findall pat text) :
    ∃ c t T, T ∈ pat.m (c :: t) ∧ T ≠ 0 ∧ tok = String.mk (List.take T (c :: t)) :=
  mem_scanGo text.data 0 none tok h

/-- A string built from a nonempty character list is not the empty string. -/
theorem string_mk_ne_empty {c : Char} {l : List Char} : String.mk (c :: l) ≠ "" := by
  intro h
  have := congrArg String.data h
  simp at this

/-- `findall` never emits the empty string. -/
theorem findall_ne_empty {pat : Pat} {text tok : String} (h : tok ∈ findall pat text) :
    tok ≠ "" := by
  obtain ⟨c, t, T, _, hT, rfl⟩ := findall_shape h
  obtain ⟨T', rfl⟩ := Nat.exists_eq_succ_of_ne_zero hT
  simpa [List.take] using (string_mk_ne_empty (c := c) (l := List.take T' t))

/-- Bounds on a candidate length of a greedy bounded repetition. -/
theorem mem_repRange {p : Char → Bool} {lo hi T : Nat} {s : List Char}
    (h : T ∈ repRange p lo hi s) : lo ≤ T ∧ T ≤ countLeading p s := by
  unfold repRange at h
  by_cases hd : min (countLeading p s) hi < lo
  · simp [hd] at h
  · simp only [hd, if_false] at h
    obtain ⟨i, hi2, rfl⟩ := List.mem_map.mp h
    have := List.mem_range.mp hi2
    have h1 := Nat.min_le_left (countLeading p s) hi
    omega

/-- A prefix no longer than the leading run satisfies the run's class. -/
theorem all_take_countLeading {p : Char → Bool} :
    ∀ (s : List Char) (T : Nat), T ≤ countLeading p s → ∀ x ∈ List.take T s, p x = true := by
  intro s
  induction s with
  | nil => simp
  | cons c t ih =>
    intro T hT x hx
    unfold countLeading at hT
    by_cases hc : p c
    · rw [if_pos hc] at hT
      cases T with
      | zero => simp at hx
      | succ T' =>
        rw [List.take_succ_cons] at hx
        rcases List.mem_cons.mp hx with rfl | hx2
        · exact hc
        · exact ih T' (by omega) x hx2
    · rw [if_neg hc] at hT
      have : T = 0 := by omega
      subst this; simp at hx

/-- A decimal digit is neither whitespace nor a dash. -/
theorem digit_not_sep {c : Char} (h : isDigitChar c = true) : isSepChar c = false := by
  simp only [isDigitChar, Bool.and_eq_true, decide_eq_true_eq] at h
  obtain ⟨h0, h9⟩ := h
  simp only [isSepChar, isSpaceChar, Bool.or_eq_true, beq_iff_eq]
  rw [Bool.eq_false_iff]
  intro hcon
  rcases Bool.or_eq_true_iff.mp hcon with hsp | hdash
  · rcases (by simpa using hsp :
        ((((c = ' ' ∨ c = '\t') ∨ c = '\n') ∨ c = '\x0d') ∨ c = '\x0b') ∨ c = '\x0c') with
      ((((rfl | rfl) | rfl) | rfl) | rfl) | rfl
    · exact absurd h0 (by decide)
    · exact absurd h0 (by decide)
    · exact absurd h0 (by decide)
    · exact absurd h0 (by decide)
    · exact absurd h0 (by decide)
    · exact absurd h0 (by decide)
  · have : c = '-' := by simpa using hdash
    subst this; exact absurd h0 (by decide)

/-- Separator-stripping is the identity on all-digit strings. -/
theorem cleanSep_of_digits {tok : String} (hd : ∀ ch ∈ tok.data, isDigitChar ch = true) :
    cleanSep tok = tok := by
  unfold cleanSep
  have : tok.data.filter (fun c => !(isSepChar c)) = tok.data :=
    List.filter_eq_self.mpr (fun a ha => by rw [digit_not_sep (hd a ha)]; rfl)
  rw [this]

/-- A string of positive length is not the empty string. -/
theorem str_ne_of_len {s : String} (h : 0 < s.length) : s ≠ "" := by
  intro he; subst he; simp at h

/-- A raw bank-account token is an all-digit nonempty string, fixed by
separator-stripping. -/
theorem bank_raw_clean (t : String) {tok : String} (h : tok ∈ findall bankAccountPat t) :
    cleanSep tok = tok ∧ tok ≠ "" := by
  obtain ⟨c, s, T, hm, hT, rfl⟩ := findall_shape h
  have hb : T ∈ repRange isDigitChar 9 18 (c :: s) := hm
  obtain ⟨hlo, hcl⟩ := mem_repRange hb
  have hdig : ∀ ch ∈ List.take T (c :: s), isDigitChar ch = true :=
    all_take_countLeading _ T hcl
  refine ⟨cleanSep_of_digits (by simpa using hdig), ?_⟩
  obtain ⟨T', rfl⟩ := Nat.exists_eq_succ_of_ne_zero hT
  simpa [List.take] using (string_mk_ne_empty (c := c) (l := List.take T' s))

/-- Merging a list of nonempty strings into a well-formed list by
dedup-append yields a well-formed list. -/
theorem goodList_dedup_append {old new : List String} (h : "" ∉ old)
    (hnew : ∀ x ∈ new, x ≠ "") : goodList ((old ++ new).dedup) := by
  refine ⟨List.nodup_dedup _, ?_⟩
  rw [List.mem_dedup, List.mem_append]
  rintro (h1 | h2)
  · exact h h1
  · exact hnew _ h2 rfl

/-- The suspicious-keyword vocabulary has no empty entry. -/
theorem susp_keywords_ne_empty : ∀ x ∈ SUSPICIOUS_KEYWORDS, x ≠ "" := by decide

/-- Newly extracted bank accounts are nonempty strings. -/
theorem bank_new_ne_empty (t : String) :
    ∀ x ∈ (findall bankAccountPat t ++ (findall formattedPat t).filter
        (fun fm => decide (9 ≤ (cleanSep fm).length) &&
          decide ((cleanSep fm).length ≤ 18))).filterMap bankKeep,
      x ≠ "" := by
  intro x hx
  obtain ⟨a, ha, hbk⟩ := List.mem_filterMap.mp hx
  have hxa : x = cleanSep a := by
    simp only [bankKeep] at hbk
    split at hbk
    · exact (Option.some.injEq _ _ ▸ hbk).symm
    · exact absurd hbk (by simp)
  subst hxa
  rcases List.mem_append.mp ha with h0 | hf
  · have := bank_raw_clean t h0
    rw [this.1]; exact this.2
  · have hg := (List.mem_filter.mp hf).2
    rcases Bool.and_eq_true_iff.mp hg with ⟨h9, _⟩
    have h9' : 9 ≤ (cleanSep a).length := by simpa using h9
    exact str_ne_of_len (by omega)

/-- Newly extracted phone numbers are nonempty (they are 10 digits long). -/
theorem phone_new_ne_empty (t : String) :
    ∀ x ∈ (findall phoneMainPat t ++ findall tenDigitPat t).filterMap phoneKeep,
      x ≠ "" := by
  intro x hx
  obtain ⟨a, _, hpk⟩ := List.mem_filterMap.mp hx
  simp only [phoneKeep] at hpk
  have hx10 : x.length = 10 := by
    split at hpk
    · split at hpk
      · cases hpk; assumption
      · exact absurd hpk (by simp)
    · split at hpk
      · cases hpk; assumption
      · exact absurd hpk (by simp)
  exact str_ne_of_len (by omega)

/-- Newly extracted UPI ids are nonempty. -/
theorem upi_new_ne_empty (t : String) :
    ∀ x ∈ (findall upiPat t).filter (fun u =>
      !(true_domains.any (fun ext => endsWithStr (lowerStr u) ext))
      || common_vpa_suffixes.any (fun sfx => endsWithStr (lowerStr u) sfx)), x ≠ "" := by
  intro x hx
  exact findall_ne_empty (List.mem_filter.mp hx).1

/-- Newly extracted URLs are nonempty. -/
theorem url_new_ne_empty (t : String) :
    ∀ x ∈ (findall urlPat t).filter (fun u =>
      !(safe_domains.any (fun safe => containsStr (lowerStr u) safe))), x ≠ "" := by
  intro x hx
  exact findall_ne_empty (List.mem_filter.mp hx).1

/-- Newly extracted suspicious keywords are nonempty. -/
theorem kw_new_ne_empty (t tl : String) :
    ∀ x ∈ (if findall verificationCodePat t = []
        then SUSPICIOUS_KEYWORDS.filter (fun kw => containsStr tl kw)
        else SUSPICIOUS_KEYWORDS.filter (fun kw => containsStr tl kw)
          ++ (findall verificationCodePat t).map (fun c => "Code: " ++ c)), x ≠ "" := by
  intro x hx
  split at hx
  · exact susp_keywords_ne_empty x (List.mem_filter.mp hx).1
  · rcases List.mem_append.mp hx with h1 | h2
    · exact susp_keywords_ne_empty x (List.mem_filter.mp h1).1
    · obtain ⟨cde, _, rfl⟩ := List.mem_map.mp h2
      have hlen : ("Code: " ++ cde).length = "Code: ".length + cde.length :=
        String.length_append _ _
      have h6 : "Code: ".length = 6 := rfl
      exact str_ne_of_len (by omega)

/-- `extract_intelligence` only ever adds to each of the five lists. -/
theorem extract_superset (text : Option String) (r : SessionIntelligence) :
    (∀ x ∈ r.bankAccounts, x ∈ (extract_intelligence text r).bankAccounts) ∧
    (∀ x ∈ r.upiIds, x ∈ (extract_intelligence text r).upiIds) ∧
    (∀ x ∈ r.phishingLinks, x ∈ (extract_intelligence text r).phishingLinks) ∧
    (∀ x ∈ r.phoneNumbers, x ∈ (extract_intelligence text r).phoneNumbers) ∧
    (∀ x ∈ r.suspiciousKeywords, x ∈ (extract_intelligence text r).suspiciousKeywords) := by
  cases text with
  | none => simp [extract_intelligence]
  | some t =>
    by_cases ht : t.isEmpty
    · simp [extract_intelligence, ht]
    · unfold extract_intelligence
      simp only [ht, if_neg, Bool.false_eq_true, not_false_iff]
      refine ⟨?_, ?_, ?_, ?_, ?_⟩ <;> intro x hx
      · split
        · exact hx
        · exact mem_dedup_append_left _ hx
      · split <;> exact mem_dedup_append_left _ hx
      · split <;> exact mem_dedup_append_left _ hx
      · split <;> exact mem_dedup_append_left _ hx
      · split <;> exact mem_dedup_append_left _ hx

/-- `extract_intelligence` preserves the record invariant: lists stay
duplicate-free and free of empty strings. -/
theorem extract_good (text : Option String) (r : SessionIntelligence)
    (hg : GoodIntel r) : GoodIntel (extract_intelligence text r) := by
  obtain ⟨hb, hu, hl, hp, hk⟩ := hg
  cases text with
  | none => exact ⟨hb, hu, hl, hp, hk⟩
  | some t =>
    by_cases ht : t.isEmpty
    · simp only [extract_intelligence, ht, if_pos]
      exact ⟨hb, hu, hl, hp, hk⟩
    · unfold extract_intelligence
      simp only [ht, Bool.false_eq_true, not_false_iff, if_neg]
      refine ⟨?_, ?_, ?_, ?_, ?_⟩
      · dsimp only
        split
        · exact hb
        · exact goodList_dedup_append hb.2 (bank_new_ne_empty t)
      · dsimp only
        split <;> exact goodList_dedup_append hu.2 (upi_new_ne_empty t)
      · dsimp only
        split <;> exact goodList_dedup_append hl.2 (url_new_ne_empty t)
      · dsimp only
        split <;> exact goodList_dedup_append hp.2 (phone_new_ne_empty t)
      · dsimp only
        split <;> exact goodList_dedup_append hk.2 (kw_new_ne_empty t (lowerStr t))

/-- Deduplication does not change the finite set of members. -/
theorem dedup_toFinset {α : Type} [DecidableEq α] (l : List α) :
    l.dedup.toFinset = l.toFinset := by
  ext x; simp [List.mem_toFinset, List.mem_dedup]

/-- The word-set intersection size equals the length of the code's filtered
intersection list. -/
theorem inter_card_eq (s1 s2 : String) :
    (specWordSet s1 ∩ specWordSet s2).card =
      ((pySplit s1.data).dedup.filter
        (fun w => decide (w ∈ (pySplit s2.data).dedup))).length := by
  have e1 : specWordSet s1 ∩ specWordSet s2 =
      ((pySplit s1.data).dedup.filter
        (fun w => decide (w ∈ (pySplit s2.data).dedup))).toFinset := by
    rw [List.toFinset_filter, dedup_toFinset, ← Finset.filter_mem_eq_inter]
    exact Finset.filter_congr (fun x _ => by
      simp [specWordSet, List.mem_dedup, List.mem_toFinset])
  rw [e1]
  exact List.toFinset_card_of_nodup ((List.nodup_dedup _).filter _)

/-- The word-set size equals the length of the code's deduplicated word
list. -/
theorem card_wordSet (s : String) :
    (specWordSet s).card = (pySplit s.data).dedup.length :=
  List.card_toFinset _

/-- The code's cross-multiplied similarity test equals the overlap/max
condition over word sets. -/
theorem sim_iff_overlap (s1 s2 : String) :
    7 * (get_sim s1 s2).2 ≤ 10 * (get_sim s1 s2).1 ↔ overlapAtLeast70 s1 s2 := by
  unfold get_sim overlapAtLeast70
  have hc1 := card_wordSet s1
  have hc2 := card_wordSet s2
  have hic := inter_card_eq s1 s2
  have hile1 : (specWordSet s1 ∩ specWordSet s2).card ≤ (specWordSet s1).card :=
    Finset.card_le_card Finset.inter_subset_left
  have hile2 : (specWordSet s1 ∩ specWordSet s2).card ≤ (specWordSet s2).card :=
    Finset.card_le_card Finset.inter_subset_right
  dsimp only
  split
  case isTrue h =>
    dsimp only
    rcases h with h1 | h2
    · have hz : (specWordSet s1).card = 0 := by rw [hc1, h1]; rfl
      constructor
      · intro hx; omega
      · rintro ⟨hpos, hle⟩; omega
    · have hz : (specWordSet s2).card = 0 := by rw [hc2, h2]; rfl
      constructor
      · intro hx; omega
      · rintro ⟨hpos, hle⟩; omega
  case isFalse h =>
    push_neg at h
    have hl1 : 0 < (pySplit s1.data).dedup.length := List.length_pos.mpr h.1
    dsimp only
    rw [hc1, hc2, hic]
    constructor
    · intro hx
      exact ⟨by omega, by omega⟩
    · rintro ⟨hpos, hle⟩; omega

/-!
The claims.
-/

/-- C1: for the inbound text "URGENT: Your SBI account is blocked. Share OTP
and account number 912345678901 now.", `detect_scam` classifies it as a scam,
`extract_intelligence` records "912345678901" among the bank accounts, and
the returned notes mention both urgency tactics and threatening language. -/
theorem C1_end_to_end_scenario :
    (detect_scam (some c1Text)).1 = true ∧
    "912345678901" ∈ (extract_intelligence (some c1Text) {}).bankAccounts ∧
    containsStr (detect_scam (some c1Text)).2.2.2 "urgency tactics" = true ∧
    containsStr (detect_scam (some c1Text)).2.2.2 "threatening language" = true := by
  decide

/-- C2, counterexample: a session whose history's cumulative half-weighted
score is 0.40 (60 < 80 two-hundredths, i.e. above the 0.30 threshold) and
whose current message "ok" scores 0.0 (below 0.30, i.e. below 30 hundredths)
is processed without flipping `scamDetected` to true, in either the response
or the stored session: the handler never consults
`analyze_conversation_history`. -/
theorem C2_counterexample :
    60 < (analyze_conversation_history c2History).1 ∧
    (detect_scam (some "ok")).2.1 < 30 ∧
    (detect_scam (some "ok")).1 = false ∧
    (process_message Session.fresh "s1" "ok" c2History "r").scamDetected = false ∧
    (process_message Session.fresh "s1" "ok" c2History "r").session.scam_detected = false := by
  decide

/-- C2, amended: if the current message's single-message score is below the
0.30 threshold and the session's flag is not already set, processing the
message leaves `scamDetected` false — for every request history, whatever
its cumulative score — and schedules no callback; the cumulative analysis
of `analyze_conversation_history` is never invoked by the handler. -/
theorem C2_no_cumulative_flip (sess : Session) (sid msg : String)
    (hist : List Msg) (reply : String)
    (hflag : sess.scam_detected = false)
    (hscore : (detect_scam (some msg)).1 = false) :
    (process_message sess sid msg hist reply).scamDetected = false ∧
    (process_message sess sid msg hist reply).session.scam_detected = false ∧
    (process_message sess sid msg hist reply).callbackScheduled = false := by
  unfold process_message
  simp [hscore, sync_history_scam_detected, append_current_scam_detected, hflag,
    should_send_callback_false]

/-- C2, witness for the amended theorem at a concrete below-threshold
message on a fresh session. -/
theorem C2_witness :
    (process_message Session.fresh "sid" "ok" [⟨"scammer", "urgent kyc"⟩] "r").scamDetected
      = false ∧
    (process_message Session.fresh "sid" "ok"
        [⟨"scammer", "urgent kyc"⟩] "r").session.scam_detected = false ∧
    (process_message Session.fresh "sid" "ok"
        [⟨"scammer", "urgent kyc"⟩] "r").callbackScheduled = false :=
  C2_no_cumulative_flip Session.fresh "sid" "ok" [⟨"scammer", "urgent kyc"⟩] "r"
    (by decide) (by decide)

/-- C3, counterexample: for the input "support@company.com" the extractor
does add a UPI identifier derived from that token — the token pattern stops
at the first non-letter after `@`, so the match is "support@company", whose
suffix is not in the TLD drop-list, and it is retained. -/
theorem C3_counterexample :
    (extract_intelligence (some "support@company.com") {}).upiIds
      = ["support@company"] := by
  decide

/-- C3, amended: "scammer@ybl" is retained; "support@company.com"
contributes the truncated token "support@company" (the `[a-zA-Z]{2,}`
provider part cannot cross the dot, and the TLD filter therefore never
matches, so the token is retained rather than dropped); "refund@oksbi" is
retained. -/
theorem C3_upi_filtering :
    (extract_intelligence (some "scammer@ybl") {}).upiIds = ["scammer@ybl"] ∧
    (extract_intelligence (some "support@company.com") {}).upiIds
      = ["support@company"] ∧
    (extract_intelligence (some "refund@oksbi") {}).upiIds = ["refund@oksbi"] := by
  decide

/-- C4, counterexample: `extract_intelligence` is not pure in its second
argument — the source assigns the merged lists into the fields of the record
passed in and returns that same object, so after a call that extracts
anything new the caller's record has changed (here: from the empty record to
one whose `upiIds` holds "scammer@ybl"). -/
theorem C4_counterexample :
    extract_argPostState (some "scammer@ybl") {} ≠ ({} : SessionIntelligence) := by
  decide

/-- C4, amended: the returned record's sets contain all entries of the given
record (plus the newly extracted entries), but the function mutates its
second argument: the argument's post-state is the returned record itself,
not its pre-state. -/
theorem C4_extract_merges_but_mutates (text : Option String) (r : SessionIntelligence) :
    (∀ x ∈ r.bankAccounts, x ∈ (extract_intelligence text r).bankAccounts) ∧
    (∀ x ∈ r.upiIds, x ∈ (extract_intelligence text r).upiIds) ∧
    (∀ x ∈ r.phishingLinks, x ∈ (extract_intelligence text r).phishingLinks) ∧
    (∀ x ∈ r.phoneNumbers, x ∈ (extract_intelligence text r).phoneNumbers) ∧
    (∀ x ∈ r.suspiciousKeywords, x ∈ (extract_intelligence text r).suspiciousKeywords) ∧
    extract_argPostState text r = extract_intelligence text r := by
  obtain ⟨h1, h2, h3, h4, h5⟩ := extract_superset text r
  exact ⟨h1, h2, h3, h4, h5, rfl⟩

/-- C4, witness: the amended theorem applied at a concrete record whose
bank-account entry survives an extraction. -/
theorem C4_witness :
    "912345678" ∈ (extract_intelligence (some "hello")
      { bankAccounts := ["912345678"] }).bankAccounts :=
  (C4_extract_merges_but_mutates (some "hello") { bankAccounts := ["912345678"] }).1
    "912345678" (by decide)

/-- C5, counterexample: for a record that already violates the invariant
(duplicate empty strings in `bankAccounts`) and a text with no extractable
digits, the bank-account list is not reassigned (the `if raw_accounts:`
guard fails), so the result still contains the empty string twice — the
claimed property does not hold for every record R. -/
theorem C5_counterexample :
    "" ∈ (extract_intelligence (some "hello")
        { bankAccounts := ["", ""] }).bankAccounts ∧
    ¬ (extract_intelligence (some "hello")
        { bankAccounts := ["", ""] }).bankAccounts.Nodup := by
  decide

/-- C5, amended: each of the five sets of `extract(text, R)` is a superset
of the corresponding set of R, and, provided R itself satisfies the
invariant (deduplicated, no empty strings), so does the result; since a
session starts from the empty record, the invariant holds across every
extraction over a session's lifetime. -/
theorem C5_invariant_preservation (text : Option String) (r : SessionIntelligence) :
    (∀ x ∈ r.bankAccounts, x ∈ (extract_intelligence text r).bankAccounts) ∧
    (∀ x ∈ r.upiIds, x ∈ (extract_intelligence text r).upiIds) ∧
    (∀ x ∈ r.phishingLinks, x ∈ (extract_intelligence text r).phishingLinks) ∧
    (∀ x ∈ r.phoneNumbers, x ∈ (extract_intelligence text r).phoneNumbers) ∧
    (∀ x ∈ r.suspiciousKeywords, x ∈ (extract_intelligence text r).suspiciousKeywords) ∧
    (GoodIntel r → GoodIntel (extract_intelligence text r)) := by
  obtain ⟨h1, h2, h3, h4, h5⟩ := extract_superset text r
  exact ⟨h1, h2, h3, h4, h5, extract_good text r⟩

/-- C5, witness: the amended theorem applied at the empty record and a
concrete extraction. -/
theorem C5_witness :
    GoodIntel (extract_intelligence (some "scammer@ybl") {}) :=
  (C5_invariant_preservation (some "scammer@ybl") {}).2.2.2.2.2 (by decide)

/-- C6: "+91 98765 43210" and "9876543210" both yield a `phoneNumbers` set
containing exactly the one entry "9876543210" (separators and the country
code stripped, only normalised 10-digit results kept). -/
theorem C6_phone_normalization :
    (extract_intelligence (some "+91 98765 43210") {}).phoneNumbers = ["9876543210"] ∧
    (extract_intelligence (some "9876543210") {}).phoneNumbers = ["9876543210"] := by
  decide

/-- C7: when every configured generation provider fails or times out (both
provider outcomes `none`), `generate_response` returns the fixed
in-character fallback line — `get_fallback_response`'s value — which is
nonempty; the embedded function is total, so no exception reaches the
caller. -/
theorem C7_fallback_guarantee (current : String) (history : List Msg) :
    generate_response none none current history = get_fallback_response current ∧
    get_fallback_response current ≠ "" := by
  refine ⟨rfl, ?_⟩
  have h : get_fallback_response current =
      "Sir please wait, let me ask my son. He handles all money matters." := rfl
  rw [h]
  decide

/-- C8: `should_send_callback` returns true iff the scam flag is set, at
least one message was processed, and the callback was not already sent. -/
theorem C8_should_dispatch_iff (s : Bool) (c : Int) (a : Bool) :
    should_send_callback s c a = true ↔ (s = true ∧ 1 ≤ c ∧ a = false) := by
  unfold should_send_callback
  rcases s <;> rcases a <;> by_cases h : (1 : Int) ≤ c <;> simp [h]

/-- C9, counterexample: the notes string returned on empty input is
"No text provided" (capital N), not the claimed "no text provided". -/
theorem C9_counterexample :
    (detect_scam (some "")).2.2.2 ≠ "no text provided" := by decide

/-- C9, amended: for every empty (or, modelled as `none`, non-string) input,
`detect_scam` returns exactly `(false, 0, [], "No text provided")` — 0 being
the scaled score 0.0 — and, being total, does not raise. -/
theorem C9_empty_input (inp : Option String) (h : inp = none ∨ inp = some "") :
    detect_scam inp = (false, 0, [], "No text provided") := by
  rcases h with h | h <;> subst h <;> rfl

/-- C9, witness: the amended theorem applied at the `none` input. -/
theorem C9_witness : detect_scam none = (false, 0, [], "No text provided") :=
  C9_empty_input none (Or.inl rfl)

/-- C10, counterexample: a history of three scammer messages on which
`is_repetitive` returns true although the claim's Jaccard condition fails
for the last pair (overlap 7 over max 10 is exactly 0.7, but Jaccard is
7/13 < 0.7). -/
theorem C10_counterexample :
    is_repetitive c10History 3 = true ∧ ¬ specRepetitiveJaccard c10History 3 := by
  decide

/-- C10, amended: `is_repetitive(history, 3)` returns true iff there are at
least 3 scammer-authored messages and every consecutive pair among the last
3 has word-overlap similarity — intersection size divided by the size of the
larger word set, not by the union size — at least 0.7. -/
theorem C10_overlap_iff (history : List Msg) :
    is_repetitive history 3 = true ↔ specRepetitiveOverlap history 3 := by
  unfold is_repetitive specRepetitiveOverlap
  dsimp only
  by_cases hlen : ((history.filter (fun m => m.sender == "scammer")).map
      (fun m => lowerStr m.text)).length < 3
  · rw [if_pos hlen]
    simp only [Bool.false_eq_true, false_iff, not_and]
    intro h3
    omega
  · rw [if_neg hlen]
    rw [List.all_eq_true]
    constructor
    · intro hall
      refine ⟨by omega, ?_⟩
      intro p hp
      have := hall p hp
      rw [← sim_iff_overlap]
      simpa [Nat.not_lt] using this
    · rintro ⟨_, hall⟩
      intro p hp
      have := (sim_iff_overlap p.1 p.2).mpr (hall p hp)
      simpa [Nat.not_lt] using this

end Honeypot
